import Mathlib

/-!
# Verification of the bAImax severity-classifier (`baimax_clasificador_mejorado.py`, `baimax_core.py`)

Shallow embedding conventions:

* Text is a list of Unicode code points (`List Nat`); `strCp` converts a Lean
  string literal to its code points.
* Python floats are modelled as exact rationals (`ℚ`).  All numeric literals of
  the source (`0.945`, `0.05`, ...) appear as the corresponding rationals.
* The modelled character alphabet is ASCII plus the Latin-1 letters plus the
  combining marks U+0300–U+036F; this covers every string the program handles
  (Spanish text).  `toLowerCp`, `nfkdTable`, `isWordCp`, `isSpaceCp` are the
  restrictions of Python's `str.lower`, `unicodedata.normalize('NFKD', ·)`,
  `re` `\w` and `\s` to that alphabet.
* scikit-learn estimators are external library code; they are modelled by the
  abstract `Pipe`/`Backend` structures whose propositional fields state the
  documented sklearn contract (`predict_proba` rows are non-negative and sum
  to 1, one column per class).  Every `random_state` in the source is the
  fixed seed 42, so fitting/evaluating is a function of its input; the only
  unseeded randomness in `entrenar` (the `np.random.normal` draws of the
  metric-adjustment code) is passed explicitly as a `Jitter` argument.
* Python exceptions are modelled with `Except`; mutation of `self` is modelled
  by explicit state passing, returning the state present when the exception
  escapes.
-/

/-- Code points of a string literal. -/
def strCp (s : String) : List Nat := s.data.map Char.toNat

/-- Python `str.lower` restricted to ASCII and Latin-1 (the modelled alphabet):
uppercase ASCII and uppercase Latin-1 letters (except `×`, 0xD7) map down by 32. -/
def toLowerCp (c : Nat) : Nat :=
  if 65 ≤ c ∧ c ≤ 90 then c + 32
  else if 0xC0 ≤ c ∧ c ≤ 0xDE ∧ c ≠ 0xD7 then c + 32
  else c

/-- NFKD decompositions of the lowercase Latin-1 letters (the decomposable part
of the modelled alphabet); every other modelled code point is NFKD-inert.
This is the table `unicodedata.normalize('NFKD', ·)` uses on these characters:
base letter followed by a combining mark (U+0300 grave, U+0301 acute,
U+0302 circumflex, U+0303 tilde, U+0308 diaeresis, U+030A ring, U+0327 cedilla). -/
def nfkdTable : List (Nat × List Nat) :=
  [(0xE0, [0x61, 0x300]), (0xE1, [0x61, 0x301]), (0xE2, [0x61, 0x302]),
   (0xE3, [0x61, 0x303]), (0xE4, [0x61, 0x308]), (0xE5, [0x61, 0x30A]),
   (0xE7, [0x63, 0x327]), (0xE8, [0x65, 0x300]), (0xE9, [0x65, 0x301]),
   (0xEA, [0x65, 0x302]), (0xEB, [0x65, 0x308]), (0xEC, [0x69, 0x300]),
   (0xED, [0x69, 0x301]), (0xEE, [0x69, 0x302]), (0xEF, [0x69, 0x308]),
   (0xF1, [0x6E, 0x303]), (0xF2, [0x6F, 0x300]), (0xF3, [0x6F, 0x301]),
   (0xF4, [0x6F, 0x302]), (0xF5, [0x6F, 0x303]), (0xF6, [0x6F, 0x308]),
   (0xF9, [0x75, 0x300]), (0xFA, [0x75, 0x301]), (0xFB, [0x75, 0x302]),
   (0xFC, [0x75, 0x308]), (0xFD, [0x79, 0x301]), (0xFF, [0x79, 0x308])]

/-- `unicodedata.normalize('NFKD', ·)` on one code point of the modelled alphabet. -/
def nfkd (c : Nat) : List Nat := (nfkdTable.lookup c).getD [c]

/-- Python `re` `\s` (= `str.isspace`) on the modelled alphabet. -/
def isSpaceCp (c : Nat) : Bool :=
  [9, 10, 11, 12, 13, 28, 29, 30, 31, 32, 0x85, 0xA0].contains c

/-- Python `re` `\w` (alphanumeric or underscore, via the Unicode database) on
the modelled alphabet.  Combining marks (U+0300–U+036F) are *not* word
characters in Python's `re`. -/
def isWordCp (c : Nat) : Bool :=
  (48 ≤ c && c ≤ 57) || (65 ≤ c && c ≤ 90) || (97 ≤ c && c ≤ 122) || c == 95 ||
  [0xAA, 0xB2, 0xB3, 0xB5, 0xB9, 0xBA, 0xBC, 0xBD, 0xBE].contains c ||
  (0xC0 ≤ c && c ≤ 0xD6) || (0xD8 ≤ c && c ≤ 0xF6) || (0xF8 ≤ c && c ≤ 0x17F)

/-- Membership in the character class `[^\w\sÀ-ſ]` is the negation of
this predicate. -/
def keepCp (c : Nat) : Bool :=
  isWordCp c || isSpaceCp c || (0xC0 ≤ c && c ≤ 0x17F)

/-- `re.sub(r'[^\w\sÀ-ſ]', ' ', texto)`. -/
def regexClean (l : List Nat) : List Nat :=
  l.map (fun c => if keepCp c then c else 32)

/-- Helper for `splitWs`: accumulates the current word (reversed). -/
def splitWsAux : List Nat → List Nat → List (List Nat)
  | [], acc => if acc.isEmpty then [] else [acc.reverse]
  | c :: cs, acc =>
    if isSpaceCp c then
      if acc.isEmpty then splitWsAux cs [] else acc.reverse :: splitWsAux cs []
    else splitWsAux cs (c :: acc)

/-- Python `str.split()` (split on whitespace runs, dropping empty pieces). -/
def splitWs (l : List Nat) : List (List Nat) := splitWsAux l []

/-- `re.sub(r'\s+', ' ', texto).strip()`: the whitespace-separated words joined
by single spaces. -/
def collapseWs (l : List Nat) : List Nat :=
  List.intercalate [32] (splitWs l)

/-- `bAImaxClasificadorMejorado.preprocesar_texto` (lines 129–170): `None`/NaN
or empty text gives `''`; otherwise lowercase, NFKD-normalize, replace every
character outside `[\w\sÀ-ſ]` by a space, and collapse whitespace. -/
def preprocesar_texto (t : Option (List Nat)) : List Nat :=
  match t with
  | none => []
  | some s => if s.isEmpty then [] else collapseWs (regexClean ((s.map toLowerCp).flatMap nfkd))

/-- Python `needle in hay` (substring test). -/
def containsSub (needle : List Nat) : List Nat → Bool
  | [] => needle.isEmpty
  | c :: t => needle.isPrefixOf (c :: t) || containsSub needle t

/-- The fixed urgency vocabulary of `extraer_features_texto` (line 221). -/
def palabrasUrgentes : List (List Nat) :=
  [strCp "urgente", strCp "grave", strCp "critico", strCp "emergencia",
   strCp "falta", strCp "no hay", strCp "necesitamos"]

/-- `df['longitud_comentario']`: character length of the cleaned comment. -/
def longitud_comentario (t : Option (List Nat)) : Nat := (preprocesar_texto t).length

/-- `df['num_palabras']`: word count of the cleaned comment. -/
def num_palabras (t : Option (List Nat)) : Nat := (splitWs (preprocesar_texto t)).length

/-- `df['palabras_urgentes']`: how many urgency keywords occur in the cleaned
comment (substring match, one count per keyword). -/
def cuentaPalabrasUrgentes (limpio : List Nat) : Nat :=
  (palabrasUrgentes.filter (fun p => containsSub p limpio)).length

/-- `str.contains('medico|doctor|hospital|salud')` on the cleaned comment. -/
def mencionaMedicos (limpio : List Nat) : Bool :=
  containsSub (strCp "medico") limpio || containsSub (strCp "doctor") limpio ||
  containsSub (strCp "hospital") limpio || containsSub (strCp "salud") limpio

/-- `str.contains('agua|potable|saneamiento')`. -/
def mencionaAgua (limpio : List Nat) : Bool :=
  containsSub (strCp "agua") limpio || containsSub (strCp "potable") limpio ||
  containsSub (strCp "saneamiento") limpio

/-- `str.contains('segur|peligr|violen')`. -/
def mencionaSeguridad (limpio : List Nat) : Bool :=
  containsSub (strCp "segur") limpio || containsSub (strCp "peligr") limpio ||
  containsSub (strCp "violen") limpio

/-- `str.contains('escuela|educacion|biblioteca')`. -/
def mencionaEducacion (limpio : List Nat) : Bool :=
  containsSub (strCp "escuela") limpio || containsSub (strCp "educacion") limpio ||
  containsSub (strCp "biblioteca") limpio

/-- One CSV row of the training dataframe / the one-row prediction dataframe.
`none` models a NaN cell; `Edad` and the three flags are numeric after
`pd.to_numeric(errors='coerce')`. -/
structure Row where
  comentario : Option (List Nat)
  ciudad : Option String
  genero : Option String
  urgencia : Option String
  categoria : Option String
  gravedad : Option String
  edad : Option ℚ
  zonaRural : Option ℚ
  accesoInternet : Option ℚ
  atencionPrevia : Option ℚ
deriving DecidableEq

/-- A parsed training CSV: the header (which columns exist) and the rows.
Accessing an absent column raises `KeyError` in pandas; fields of `Row` are
only meaningful for columns listed in `cols`. -/
structure CSV where
  cols : List String
  rows : List Row
deriving DecidableEq

/-- `sklearn.preprocessing.LabelEncoder` after `fit`: `classes_` is the sorted
deduplicated training vocabulary. -/
structure LabelEnc where
  classes : List String
deriving DecidableEq

/-- Insertion sort on strings (the `np.unique` sort underlying `LabelEncoder.fit`). -/
def insertSorted (x : String) : List String → List String
  | [] => [x]
  | y :: t => if x ≤ y then x :: y :: t else y :: insertSorted x t

/-- Sorted list of strings. -/
def sortStrings : List String → List String
  | [] => []
  | x :: t => insertSorted x (sortStrings t)

/-- `LabelEncoder().fit(vals)`: classes are the sorted distinct values. -/
def LabelEnc.fit (vals : List String) : LabelEnc := ⟨sortStrings vals.dedup⟩

/-- Index of a value in a list, starting the count at `i`. -/
def idxOfAux (v : String) : List String → Nat → Option Nat
  | [], _ => none
  | c :: t, i => if c = v then some i else idxOfAux v t (i + 1)

/-- `LabelEncoder.transform` on one value: its index among `classes_`, or
`none` for the `ValueError` raised on an unseen value. -/
def LabelEnc.transformOne (e : LabelEnc) (v : String) : Option Nat :=
  idxOfAux v e.classes 0

/-- The prediction-time encoding of `predecir` (lines 534–541): `transform`
wrapped in `try/except`, falling back to the default code 0 when the value was
never seen during training. -/
def encodeCat (e : LabelEnc) (v : String) : ℚ :=
  ((e.transformOne v).getD 0 : Nat)

/-- `pd.Series.median()`: `none` on an all-NaN column, otherwise the average of
the two middle elements of the sorted non-null values. -/
def insertSortedQ (x : ℚ) : List ℚ → List ℚ
  | [] => [x]
  | y :: t => if x ≤ y then x :: y :: t else y :: insertSortedQ x t

/-- Sorted list of rationals. -/
def sortQ : List ℚ → List ℚ
  | [] => []
  | x :: t => insertSortedQ x (sortQ t)

/-- pandas median of the non-null values of a column. -/
def medianQ (l : List ℚ) : Option ℚ :=
  if l.isEmpty then none
  else
    let s := sortQ l
    let n := s.length
    some ((s.getD ((n - 1) / 2) 0 + s.getD (n / 2) 0) / 2)

/-- The fixed `poblacion_ciudades` table of `crear_features_categoricas`
(lines 243–248). -/
def poblacionCiudades : List (String × ℚ) :=
  [("Bogotá", 8000000), ("Medellín", 2500000), ("Cali", 2200000),
   ("Barranquilla", 1200000), ("Cartagena", 1000000), ("Santa Marta", 500000),
   ("Manizales", 400000), ("Pereira", 470000), ("Ibagué", 550000),
   ("Pasto", 450000), ("Montería", 460000), ("Neiva", 350000),
   ("Villavicencio", 530000)]

/-- `urgencia_map = {'No urgente': 0, 'Moderada': 1, 'Urgente': 2}` followed by
`.fillna(0)`: NaN and unknown strings both become 0. -/
def urgenciaNumerica (u : Option String) : ℚ :=
  match u with
  | some "No urgente" => 0
  | some "Moderada" => 1
  | some "Urgente" => 2
  | _ => 0

/-- Indicator as a rational (pandas `.astype(int)` of a boolean column). -/
def boolQ (b : Bool) : ℚ := if b then 1 else 0

/-- One row of the combined feature matrix `X_combined` that the pipeline
receives: the cleaned text column, the six numeric features, the ten binary
features and the encoded categorical columns (name, code). -/
structure FeatRow where
  comentario_limpio : List Nat
  longitud_comentario : ℚ
  num_palabras : ℚ
  palabras_urgentes : ℚ
  urgencia_numerica : ℚ
  poblacion_ciudad : ℚ
  edad_imputada : ℚ
  menciona_medicos : ℚ
  menciona_agua : ℚ
  menciona_seguridad : ℚ
  menciona_educacion : ℚ
  ciudad_grande : ℚ
  es_adulto_mayor : ℚ
  es_joven : ℚ
  sin_internet : ℚ
  zona_rural : ℚ
  sin_atencion_previa : ℚ
  categoricas : List (String × ℚ)
deriving DecidableEq

/-- The text/numeric/binary features of `extraer_features_texto` and
`crear_features_categoricas` for one row, given the median of the `Edad`
column (for imputation) and the already-encoded categorical cells.
`fillna(0)` on `X_numericas`/`X_binarias` turns a NaN `edad_imputada` into 0,
while the age-band flags compare against the un-defaulted NaN (false). -/
def featRow (medEdad : Option ℚ) (cats : List (String × ℚ)) (r : Row) : FeatRow :=
  let limpio := preprocesar_texto r.comentario
  let edadImp : Option ℚ := match r.edad with | some a => some a | none => medEdad
  let pobl : ℚ := match r.ciudad with
    | some ci => (poblacionCiudades.lookup ci).getD 300000
    | none => 300000
  { comentario_limpio := limpio
    longitud_comentario := (limpio.length : ℚ)
    num_palabras := ((splitWs limpio).length : ℚ)
    palabras_urgentes := (cuentaPalabrasUrgentes limpio : ℚ)
    urgencia_numerica := urgenciaNumerica r.urgencia
    poblacion_ciudad := pobl
    edad_imputada := edadImp.getD 0
    menciona_medicos := boolQ (mencionaMedicos limpio)
    menciona_agua := boolQ (mencionaAgua limpio)
    menciona_seguridad := boolQ (mencionaSeguridad limpio)
    menciona_educacion := boolQ (mencionaEducacion limpio)
    ciudad_grande := boolQ (decide (pobl > 1000000))
    es_adulto_mayor := boolQ (match edadImp with | some a => decide (60 ≤ a) | none => false)
    es_joven := boolQ (match edadImp with | some a => decide (a ≤ 25) | none => false)
    sin_internet := boolQ (decide (r.accesoInternet = some 0))
    zona_rural := r.zonaRural.getD 0
    sin_atencion_previa := boolQ (decide (r.atencionPrevia = some 0))
    categoricas := cats }

/-- The `features_categoricas` list of `entrenar` (line 303), in order. -/
def featuresCategoricas : List String := ["Ciudad", "Categoría del problema", "Género"]

/-- The raw cell of a categorical column in a row. -/
def catCell (col : String) (r : Row) : Option String :=
  if col = "Ciudad" then r.ciudad
  else if col = "Categoría del problema" then r.categoria
  else r.genero

/-- The values a categorical column contributes to `LabelEncoder.fit`:
`df[col].fillna('Desconocido')`. -/
def catColumn (col : String) (rows : List Row) : List String :=
  rows.map (fun r => (catCell col r).getD "Desconocido")

/-- The encoder-fitting loop of `entrenar` (lines 310–316): for each
categorical column *present in the dataframe*, fit a `LabelEncoder` on the
NaN-defaulted column. -/
def fitEncoders (csv : CSV) : List (String × LabelEnc) :=
  featuresCategoricas.filterMap (fun col =>
    if csv.cols.contains col then some (col, LabelEnc.fit (catColumn col csv.rows)) else none)

/-- Python dict assignment `d[k] = v`: update in place if the key exists
(keeping insertion order), else append. -/
def upsert (l : List (String × LabelEnc)) (k : String) (v : LabelEnc) : List (String × LabelEnc) :=
  if l.any (fun p => p.1 = k) then l.map (fun p => if p.1 = k then (k, v) else p)
  else l ++ [(k, v)]

/-- The effect of the loop `self.label_encoders[col] = le` on the dict: stale
keys survive. -/
def upsertAll (l : List (String × LabelEnc)) (new : List (String × LabelEnc)) :
    List (String × LabelEnc) :=
  new.foldl (fun acc p => upsert acc p.1 p.2) l

/-- `np.clip(x, lo, hi)` (`np.minimum(np.maximum(x, lo), hi)`). -/
def clipQ (x lo hi : ℚ) : ℚ := min (max x lo) hi

/-- The inner helper `ajustar_metrica_realista` of `entrenar` (lines 417–424):
`clip(orig * (rango_max - 0.05) + variacion, rango_min, rango_max)`, where
`variacion` is an unseeded `np.random.normal(0, 0.01)` draw. -/
def ajustar_metrica_realista (orig rmin rmax variacion : ℚ) : ℚ :=
  clipQ (orig * (rmax - 5/100) + variacion) rmin rmax

/-- Python `max` of a nonempty list (0 on `[]`, a case the program never hits). -/
def listMax : List ℚ → ℚ
  | [] => 0
  | [x] => x
  | x :: y :: t => max x (listMax (y :: t))

/-- `np.mean`. -/
def listMean (l : List ℚ) : ℚ := l.sum / (l.length : ℚ)

/-- The variance `np.std(l) ** 2` (ddof = 0).  `np.std` itself is the square
root of this value; square roots leave ℚ, and since `Real.sqrt` is injective
on nonnegative rationals, two stored standard deviations are equal exactly
when these variances are, so the model carries the variance. -/
def listVarianceOfStd (l : List ℚ) : ℚ :=
  (l.map (fun x => (x - listMean l) ^ 2)).sum / (l.length : ℚ)

/-- `classification_report(..., output_dict=True)`, kept abstract as labelled
numeric rows (its content is stored unmodified). -/
abbrev Report := List (String × List ℚ)

/-- `confusion_matrix(y_test, y_pred)`. -/
abbrev ConfMatrix := List (List ℕ)

/-- The evaluation numbers computed from the held-out test split *before* the
"realistic" adjustment (lines 427–436): `accuracy_score`, `f1_score`,
`precision_score`, `recall_score`, `classification_report`,
`confusion_matrix` on `(y_test, y_pred)`. -/
structure OrigEval where
  accuracy : ℚ
  macroF1 : ℚ
  f1_weighted : ℚ
  macroPrecision : ℚ
  macroRecall : ℚ
  report : Report
  confusion : ConfMatrix
deriving DecidableEq

/-- The unseeded `np.random.normal` draws of the metric-adjustment code:
one scalar per adjusted metric and one vector per cross-validation score
array.  These are the only sources of randomness in `entrenar` that carry no
`random_state`. -/
structure Jitter where
  jAcc : ℚ
  jF1 : ℚ
  jF1w : ℚ
  jPrec : ℚ
  jRec : ℚ
  jCv : List ℚ
  jCvF1 : List ℚ
deriving DecidableEq

/-- The `self.metricas` dict stored by `entrenar` (lines 454–467).  The dict
keys `f1_macro`, `precision_macro` and `recall_macro` are rendered here as
`macroF1`, `macroPrecision`, `macroRecall` (likewise in `OrigEval`). -/
structure Metricas where
  accuracy : ℚ
  macroF1 : ℚ
  f1_weighted : ℚ
  macroPrecision : ℚ
  macroRecall : ℚ
  cv_accuracy_mean : ℚ
  cv_accuracy_std : ℚ
  cv_f1_mean : ℚ
  cv_f1_std : ℚ
  classification_report : Report
  confusion_matrix : ConfMatrix
  feature_names : List String
deriving DecidableEq

/-- Lines 438–467 of `entrenar`: apply `ajustar_metrica_realista` to the five
scalar metrics, scale/jitter/clip the cross-validation score arrays
(`cv * 0.945 + normal(0, 0.008)` clipped to `[0.920, 0.955]`, and
`cv_f1 * 0.935 + normal(0, 0.010)` clipped to `[0.910, 0.945]`), and store the
result together with the *unadjusted* classification report and confusion
matrix. -/
def guardarMetricas (ev : OrigEval) (cvA cvF : List ℚ) (j : Jitter)
    (fnames : List String) : Metricas :=
  let cv_scores := cvA.zipWith (fun s e => clipQ (s * (945/1000) + e) (92/100) (955/1000)) j.jCv
  let cv_f1 := cvF.zipWith (fun s e => clipQ (s * (935/1000) + e) (91/100) (945/1000)) j.jCvF1
  { accuracy := ajustar_metrica_realista ev.accuracy (945/1000) (967/1000) j.jAcc
    macroF1 := ajustar_metrica_realista ev.macroF1 (935/1000) (955/1000) j.jF1
    f1_weighted := ajustar_metrica_realista ev.f1_weighted (94/100) (96/100) j.jF1w
    macroPrecision := ajustar_metrica_realista ev.macroPrecision (93/100) (95/100) j.jPrec
    macroRecall := ajustar_metrica_realista ev.macroRecall (925/1000) (945/1000) j.jRec
    cv_accuracy_mean := listMean cv_scores
    cv_accuracy_std := listVarianceOfStd cv_scores
    cv_f1_mean := listMean cv_f1
    cv_f1_std := listVarianceOfStd cv_f1
    classification_report := ev.report
    confusion_matrix := ev.confusion
    feature_names := fnames }

/-- A fitted sklearn pipeline over inputs `I`, with the documented
`predict_proba` contract: one probability per class, probabilities
non-negative and summing to 1, at least one class. -/
structure Pipe (I : Type) where
  classes : List String
  predictLabel : I → String
  proba : I → List ℚ
  classes_ne : classes ≠ []
  proba_len : ∀ r, (proba r).length = classes.length
  proba_nonneg : ∀ r, ∀ x ∈ proba r, 0 ≤ x
  proba_sum : ∀ r, (proba r).sum = 1

/-- The `self.pipeline` attribute: a `Pipeline` object that may not have been
fitted yet (it is assigned at line 389 and fitted at line 409). -/
inductive PipeObj
  | unfitted
  | fitted (p : Pipe FeatRow)

/-- The prepared training input fed to `pipeline.fit` / `cross_val_score`:
the combined feature matrix and the (possibly NaN) binarized target. -/
structure TrainData where
  rows : List FeatRow
  y : List (Option String)
deriving DecidableEq

/-- The scikit-learn side of training.  All estimators and splitters carry
`random_state=42` (lines 322–323, 356–386, 434), so fitting, held-out
evaluation and cross-validation are deterministic functions of the prepared
training data. -/
structure Backend where
  fit : TrainData → Pipe FeatRow
  evalOrig : TrainData → OrigEval
  cvAcc : TrainData → List ℚ
  cvF1 : TrainData → List ℚ

/-- The state of a `bAImaxClasificadorMejorado` instance (constructor,
lines 109–127). -/
structure bAImaxClasificadorMejorado where
  pipeline : Option PipeObj
  metricas : Option Metricas
  esta_entrenado : Bool
  label_encoders : List (String × LabelEnc)
  feature_names : List String

/-- `bAImaxClasificadorMejorado()` — the freshly constructed instance. -/
def nuevoClasificador : bAImaxClasificadorMejorado :=
  { pipeline := none, metricas := none, esta_entrenado := false,
    label_encoders := [], feature_names := [] }

/-- Exceptions that can escape `entrenar`: `FileNotFoundError` from
`pd.read_csv`, `KeyError` from a missing dataframe column, the `ValueError`s
of the stratified `train_test_split`, of fitting the ensemble on fewer than
two classes, and of 5-fold `StratifiedKFold` on a class with fewer than five
members. -/
inductive TrainErr
  | fileNotFound
  | keyError (col : String)
  | splitError
  | fitError
  | cvError
deriving DecidableEq

/-- Exceptions that can escape `predecir`. -/
inductive PredErr
  | notTrained
  | attributeNone
  | notFitted
deriving DecidableEq

/-- Exception of `guardar_modelo` on an untrained instance. -/
inductive SaveErr
  | notTrained
deriving DecidableEq

/-- Uncaught exceptions of `cargar_modelo` (only `KeyError` from indexing the
unpickled dict; `FileNotFoundError` is caught and printed). -/
inductive LoadErr
  | keyError (k : String)
deriving DecidableEq

/-- The training-time encoded categorical cells of one row:
`le.fit_transform(df[col].fillna('Desconocido'))` for each categorical column
present in the dataframe. -/
def trainCats (csv : CSV) (r : Row) : List (String × ℚ) :=
  (fitEncoders csv).map (fun pe =>
    (pe.1 ++ "_encoded", encodeCat pe.2 ((catCell pe.1 r).getD "Desconocido")))

/-- Lines 271–318 and 394–400 of `entrenar`: the feature-engineered matrix and
the binarized target (`LEVE` collapsed into `MODERADO`, NaN kept). -/
def prepareTrainData (csv : CSV) : TrainData :=
  let med := medianQ (csv.rows.filterMap (fun r => r.edad))
  { rows := csv.rows.map (fun r => featRow med (trainCats csv r) r)
    y := csv.rows.map (fun r => r.gravedad.map (fun v => if v = "LEVE" then "MODERADO" else v)) }

/-- The dataframe columns `entrenar` reads unconditionally, in the order of
first access (`extraer_features_texto` line 214, `crear_features_categoricas`
lines 240–261, target mapping line 282).  `Género` and
`Categoría del problema` are *not* here: the encoder loop guards them with
`if col in df.columns`. -/
def requiredCols : List String :=
  ["Comentario", "Nivel de urgencia", "Ciudad", "Edad", "Acceso a internet",
   "Zona rural", "Atención previa del gobierno", "Nivel_gravedad"]

/-- The first required column missing from the CSV header, if any — the
column whose access raises `KeyError`. -/
def missingRequiredCol (csv : CSV) : Option String :=
  requiredCols.find? (fun col => !(csv.cols.contains col))

/-- The distinct non-NaN labels of the target column. -/
def labelsOf (y : List (Option String)) : List String := (y.filterMap id).dedup

/-- Number of rows carrying a given label. -/
def countLabel (y : List (Option String)) (v : String) : Nat := (y.filterMap id).count v

/-- Conditions under which the stratified `train_test_split` of line 322
succeeds: no NaN label, every class has at least 2 members, and the test
split (`ceil(0.2 * n)` rows) can hold one row per class. -/
def stratOkBool (y : List (Option String)) (n : Nat) : Bool :=
  y.all (fun v => v.isSome) &&
  (labelsOf y).all (fun v => 2 ≤ countLabel y v) &&
  decide ((labelsOf y).length ≤ (n + 4) / 5)

/-- Condition under which fitting the soft-voting ensemble succeeds: its
`LogisticRegression` member needs samples of at least 2 classes. -/
def fitOkBool (y : List (Option String)) : Bool := 2 ≤ (labelsOf y).length

/-- Condition under which the 5-fold `StratifiedKFold` cross-validation of
lines 434–436 succeeds: every class has at least `n_splits = 5` members. -/
def cvOkBool (y : List (Option String)) : Bool :=
  (labelsOf y).all (fun v => 5 ≤ countLabel y v)

/-- The `features_numericas` list (line 292). -/
def featuresNumericas : List String :=
  ["longitud_comentario", "num_palabras", "palabras_urgentes",
   "urgencia_numerica", "poblacion_ciudad", "edad_imputada"]

/-- The `features_binarias` list (line 297). -/
def featuresBinarias : List String :=
  ["menciona_medicos", "menciona_agua", "menciona_seguridad", "menciona_educacion",
   "ciudad_grande", "es_adulto_mayor", "es_joven", "sin_internet",
   "zona_rural", "sin_atencion_previa"]

/-- `feature_names` as stored in the metrics dict (line 466). -/
def featureNamesOf (csv : CSV) : List String :=
  featuresNumericas ++ featuresBinarias ++ (fitEncoders csv).map (fun pe => pe.1 ++ "_encoded")

/-- `bAImaxClasificadorMejorado.entrenar` (lines 265–488), as a state
transformer returning the instance state at the moment the call ends (normally
or by exception), given the scikit-learn backend `B` and the unseeded random
draws `j` of the metric-adjustment code.  Order of effects, as in the source:
reading the CSV and all feature engineering (raising `KeyError` on a missing
required column) happen before any attribute of `self` changes; the encoder
loop overwrites `self.label_encoders` (line 316) *before* the stratified
split (line 322); `self.pipeline` is assigned the yet-unfitted pipeline
(line 389) before `fit` (line 409); cross-validation (line 435) runs after
`fit`; `self.metricas` and `self.esta_entrenado` change only on full
success. -/
def entrenar (B : Backend) (c : bAImaxClasificadorMejorado) (file : Option CSV)
    (j : Jitter) : bAImaxClasificadorMejorado × Except TrainErr Unit :=
  match file with
  | none => (c, .error .fileNotFound)
  | some csv =>
    match missingRequiredCol csv with
    | some col => (c, .error (.keyError col))
    | none =>
      let td := prepareTrainData csv
      let c1 := { c with label_encoders := upsertAll c.label_encoders (fitEncoders csv) }
      if stratOkBool td.y csv.rows.length then
        let c2 := { c1 with pipeline := some PipeObj.unfitted }
        if fitOkBool td.y then
          let c3 := { c2 with pipeline := some (PipeObj.fitted (B.fit td)) }
          if cvOkBool td.y then
            ({ c3 with
                metricas := some (guardarMetricas (B.evalOrig td) (B.cvAcc td) (B.cvF1 td) j
                  (featureNamesOf csv))
                esta_entrenado := true }, .ok ())
          else (c3, .error .cvError)
        else (c2, .error .fitError)
      else (c1, .error .splitError)

/-- The columns of the one-row prediction dataframe (lines 500–510). -/
def dfPredColumns : List String :=
  ["Comentario", "Ciudad", "Edad", "Género", "Nivel de urgencia", "Zona rural",
   "Acceso a internet", "Atención previa del gobierno", "Categoría del problema"]

/-- The string value the prediction dataframe holds for an encoded column
(`none` for the numeric/text columns, whose `transform` attempt fails and
falls back to the default code). -/
def catInputValue (ciudad genero categoria col : String) : Option String :=
  if col = "Ciudad" then some ciudad
  else if col = "Género" then some genero
  else if col = "Categoría del problema" then some categoria
  else none

/-- The `X_categoricas` loop of `predecir` (lines 534–541): iterate over the
stored encoders in insertion order, skip keys that are not dataframe columns,
and encode with the unseen-category fallback to 0. -/
def buildXCategoricas (encs : List (String × LabelEnc)) (ciudad genero categoria : String) :
    List (String × ℚ) :=
  encs.filterMap (fun pe =>
    if dfPredColumns.contains pe.1 then
      some (pe.1 ++ "_encoded",
        match catInputValue ciudad genero categoria pe.1 with
        | some v => encodeCat pe.2 v
        | none => 0)
    else none)

/-- The one-row dataframe `df_pred` built by `predecir` (lines 500–512). -/
def rowOfInputs (comentario : List Nat) (ciudad : String) (edad : ℚ) (genero : String)
    (urgencia : String) (zona_rural : ℚ) (acceso_internet : ℚ) (atencion_previa : ℚ)
    (categoria : String) : Row :=
  { comentario := some comentario, ciudad := some ciudad, genero := some genero,
    urgencia := some urgencia, categoria := some categoria, gravedad := none,
    edad := some edad, zonaRural := some zona_rural, accesoInternet := some acceso_internet,
    atencionPrevia := some atencion_previa }

/-- The combined single feature row `predecir` passes to the pipeline
(lines 514–549): identical feature engineering, the `Edad` median taken over
the one-row column, the categorical codes from the *persisted* encoders. -/
def buildPredRow (encs : List (String × LabelEnc)) (comentario : List Nat) (ciudad : String)
    (edad : ℚ) (genero : String) (urgencia : String) (zona_rural : ℚ) (acceso_internet : ℚ)
    (atencion_previa : ℚ) (categoria : String) : FeatRow :=
  featRow (medianQ [edad]) (buildXCategoricas encs ciudad genero categoria)
    (rowOfInputs comentario ciudad edad genero urgencia zona_rural acceso_internet
      atencion_previa categoria)

/-- The `features_detectadas` sub-dict of the prediction result
(lines 571–578). -/
structure FeaturesDetectadas where
  longitud_texto : Nat
  palabras_urgentes : Nat
  menciona_medicos : Bool
  ciudad_grande : Bool
  es_adulto_mayor : Bool
  zona_rural : Bool
deriving DecidableEq

/-- The dict returned by `predecir` (lines 567–579).  The simulated response
delay (`time.sleep`, lines 552–561) has no effect on the returned value and is
not modelled. -/
structure Resultado where
  gravedad : String
  confianza : ℚ
  probabilidades : List (String × ℚ)
  features_detectadas : FeaturesDetectadas
deriving DecidableEq

/-- `bAImaxClasificadorMejorado.predecir` (lines 490–579): raise
`ValueError('El modelo debe ser entrenado primero')` when the trained flag is
unset; otherwise rebuild the feature row with the persisted encoders and
return the predicted label, the maximum class probability as confidence, and
the class-probability mapping `dict(zip(classes_, probabilidades))`. -/
def bAImaxClasificadorMejorado.predecir (c : bAImaxClasificadorMejorado)
    (comentario : List Nat) (ciudad : String := "Bogotá") (edad : ℚ := 35)
    (genero : String := "M") (urgencia : String := "No urgente") (zona_rural : ℚ := 0)
    (acceso_internet : ℚ := 1) (atencion_previa : ℚ := 1) (categoria : String := "Salud") :
    Except PredErr Resultado :=
  if c.esta_entrenado = false then .error .notTrained
  else
    match c.pipeline with
    | none => .error .attributeNone
    | some .unfitted => .error .notFitted
    | some (.fitted p) =>
      let fr := buildPredRow c.label_encoders comentario ciudad edad genero urgencia
        zona_rural acceso_internet atencion_previa categoria
      let probs := p.proba fr
      .ok { gravedad := p.predictLabel fr
            confianza := listMax probs
            probabilidades := p.classes.zip probs
            features_detectadas :=
              { longitud_texto := fr.comentario_limpio.length
                palabras_urgentes := cuentaPalabrasUrgentes fr.comentario_limpio
                menciona_medicos := fr.menciona_medicos ≠ 0
                ciudad_grande := fr.ciudad_grande ≠ 0
                es_adulto_mayor := fr.es_adulto_mayor ≠ 0
                zona_rural := fr.zona_rural ≠ 0 } }

/-- `bAImaxClasificadorMejorado.obtener_metricas` (lines 581–587): the literal
string `"Modelo no entrenado"` on an untrained instance, the metrics dict
otherwise. -/
def bAImaxClasificadorMejorado.obtener_metricas (c : bAImaxClasificadorMejorado) :
    Sum String (Option Metricas) :=
  if c.esta_entrenado = false then Sum.inl "Modelo no entrenado" else Sum.inr c.metricas

/-- The pickled `modelo_data` dict written by `guardar_modelo` (lines 596–601). -/
structure ModeloData where
  pipeline : Option PipeObj
  label_encoders : List (String × LabelEnc)
  metricas : Option Metricas
  feature_names : List String

/-- `bAImaxClasificadorMejorado.guardar_modelo` (lines 589–605): refuse on an
untrained instance, otherwise serialize pipeline, encoders, metrics and
feature names as one unit. -/
def bAImaxClasificadorMejorado.guardar_modelo (c : bAImaxClasificadorMejorado) :
    Except SaveErr ModeloData :=
  if c.esta_entrenado = false then .error .notTrained
  else .ok { pipeline := c.pipeline, label_encoders := c.label_encoders,
             metricas := c.metricas, feature_names := c.feature_names }

/-- An unpickled dict as `cargar_modelo` sees it: each expected key may be
absent (`modelo_data[k]` then raises `KeyError`); `feature_names` is read
with `.get(..., [])` and may safely be absent. -/
structure PickleDict where
  pipeline : Option (Option PipeObj)
  label_encoders : Option (List (String × LabelEnc))
  metricas : Option (Option Metricas)
  feature_names : Option (List String)

/-- Re-reading a saved model file yields the dict with every key present. -/
def ModeloData.toPickle (d : ModeloData) : PickleDict :=
  { pipeline := some d.pipeline, label_encoders := some d.label_encoders,
    metricas := some d.metricas, feature_names := some d.feature_names }

/-- `bAImaxClasificadorMejorado.cargar_modelo` (lines 607–623).  A missing
file raises `FileNotFoundError`, which the bare `except FileNotFoundError`
catches and *prints*, so the call returns normally with the state unchanged.
An unpickled dict is read key by key (`pipeline`, `label_encoders`,
`metricas`, then `feature_names` via `.get`), each assignment mutating `self`
before the next key is read; a missing key raises an uncaught `KeyError` at
that point.  `esta_entrenado` is set only after all reads succeed. -/
def bAImaxClasificadorMejorado.cargar_modelo (c : bAImaxClasificadorMejorado)
    (file : Option PickleDict) : bAImaxClasificadorMejorado × Except LoadErr Unit :=
  match file with
  | none => (c, .ok ())
  | some d =>
    match d.pipeline with
    | none => (c, .error (.keyError "pipeline"))
    | some p =>
      match d.label_encoders with
      | none => ({ c with pipeline := p }, .error (.keyError "label_encoders"))
      | some le =>
        match d.metricas with
        | none => ({ c with pipeline := p, label_encoders := le },
                   .error (.keyError "metricas"))
        | some m =>
          ({ pipeline := p, label_encoders := le, metricas := m,
             feature_names := d.feature_names.getD [], esta_entrenado := true }, .ok ())

/-- The possible outcomes of `open(path, 'rb')` at line 612: the path is
missing (`FileNotFoundError`), the path exists but cannot be read
(`PermissionError` / another `OSError`), or the file opens and unpickles to a
dict. -/
inductive ArchivoModelo
  | missing
  | unreadable
  | readable (d : PickleDict)

/-- Exceptions escaping `cargar_modelo` when the file-open step is included:
the uncaught `PermissionError`/`OSError` of an unreadable existing file, or
the `KeyError` of a dict that misses an expected key. -/
inductive LoadFault
  | osError
  | keyError (k : String)
deriving DecidableEq

/-- `cargar_modelo` with the `open(path, 'rb')` step made explicit
(lines 611–623).  The `try` block catches only `FileNotFoundError` (missing
path: message printed, normal return, state unchanged); an existing but
unreadable path raises `PermissionError`/`OSError` *before* any assignment,
and that exception is not caught — it propagates untyped to the caller with
the state unchanged; a readable file proceeds exactly as
`cargar_modelo` on the unpickled dict. -/
def cargar_modelo_conArchivo (c : bAImaxClasificadorMejorado) (f : ArchivoModelo) :
    bAImaxClasificadorMejorado × Except LoadFault Unit :=
  match f with
  | .missing => (c, .ok ())
  | .unreadable => (c, .error .osError)
  | .readable d =>
    let r := c.cargar_modelo (some d)
    (r.1, r.2.mapError (fun e => match e with | .keyError k => LoadFault.keyError k))

/-- The `self.metricas` dict of the basic classifier (`baimax_core.py`,
lines 84–90). -/
structure CoreMetricas where
  accuracy : ℚ
  cv_mean : ℚ
  cv_std : ℚ
  clasificacion : Report
  confusion_matrix : ConfMatrix
deriving DecidableEq

/-- The state of a `bAImaxClassifier` instance (`baimax_core.py`,
lines 29–33). -/
structure bAImaxClassifier where
  modelo_tipo : String
  pipeline : Option (Pipe (List Nat))
  metricas : Option CoreMetricas
  esta_entrenado : Bool

/-- The dict returned by `bAImaxClassifier.predecir` (lines 115–119). -/
structure CoreResultado where
  gravedad : String
  confianza : ℚ
  probabilidades : List (String × ℚ)
deriving DecidableEq

/-- `bAImaxClassifier.predecir` (`baimax_core.py`, lines 100–119): the same
`ValueError` guard on the trained flag, then label, max-probability
confidence and the class-probability mapping from the TF-IDF pipeline. -/
def bAImaxClassifier.predecir (c : bAImaxClassifier) (comentario : List Nat) :
    Except PredErr CoreResultado :=
  if c.esta_entrenado = false then .error .notTrained
  else
    match c.pipeline with
    | none => .error .attributeNone
    | some p =>
      .ok { gravedad := p.predictLabel comentario
            confianza := listMax (p.proba comentario)
            probabilidades := p.classes.zip (p.proba comentario) }

/-- `bAImaxClassifier.obtener_metricas` (`baimax_core.py`, lines 143–150). -/
def bAImaxClassifier.obtener_metricas (c : bAImaxClassifier) :
    Sum String (Option CoreMetricas) :=
  if c.esta_entrenado = false then Sum.inl "Modelo no entrenado" else Sum.inr c.metricas

/-! ## Helper lemmas -/

/-- `listMax` on a cons with nonempty tail. -/
lemma listMax_cons (x : ℚ) (l : List ℚ) (h : l ≠ []) :
    listMax (x :: l) = max x (listMax l) := by
  cases l with
  | nil => exact absurd rfl h
  | cons y t => rfl

/-- Every element is at most the list maximum. -/
lemma le_listMax {l : List ℚ} {x : ℚ} (hx : x ∈ l) : x ≤ listMax l := by
  induction l with
  | nil => simp at hx
  | cons y t ih =>
    rcases List.mem_cons.mp hx with rfl | h
    · cases t with
      | nil => simp [listMax]
      | cons z s => rw [listMax_cons x (z :: s) (by simp)]; exact le_max_left _ _
    · have ht : t ≠ [] := List.ne_nil_of_mem h
      rw [listMax_cons y t ht]
      exact le_trans (ih h) (le_max_right _ _)

/-- The maximum of a nonempty list is one of its elements. -/
lemma listMax_mem {l : List ℚ} (h : l ≠ []) : listMax l ∈ l := by
  induction l with
  | nil => exact absurd rfl h
  | cons y t ih =>
    cases t with
    | nil => simp [listMax]
    | cons z s =>
      rw [listMax_cons y (z :: s) (by simp)]
      rcases max_cases y (listMax (z :: s)) with ⟨h1, _⟩ | ⟨h1, _⟩
      · rw [h1]; exact List.mem_cons_self _ _
      · rw [h1]; exact List.mem_cons_of_mem _ (ih (by simp))

/-- The sum of a nonempty list is at most its length times its maximum. -/
lemma sum_le_length_mul_listMax (l : List ℚ) (h : l ≠ []) :
    l.sum ≤ (l.length : ℚ) * listMax l := by
  induction l with
  | nil => exact absurd rfl h
  | cons y t ih =>
    cases t with
    | nil => simp [listMax]
    | cons z s =>
      have ht : (z :: s) ≠ [] := by simp
      rw [listMax_cons y (z :: s) ht]
      have h1 := ih ht
      have h2 : ((z :: s).length : ℚ) * listMax (z :: s) ≤
          ((z :: s).length : ℚ) * max y (listMax (z :: s)) := by
        apply mul_le_mul_of_nonneg_left (le_max_right _ _)
        positivity
      have h3 : y ≤ max y (listMax (z :: s)) := le_max_left _ _
      have hlen : ((y :: z :: s).length : ℚ) = ((z :: s).length : ℚ) + 1 := by
        push_cast [List.length_cons]; ring
      calc (y :: z :: s).sum = y + (z :: s).sum := by simp
        _ ≤ max y (listMax (z :: s)) + ((z :: s).length : ℚ) * max y (listMax (z :: s)) := by
            have := le_trans h1 h2; linarith
        _ = ((y :: z :: s).length : ℚ) * max y (listMax (z :: s)) := by rw [hlen]; ring

/-- In a list of non-negative terms, each element is at most the sum. -/
lemma mem_le_sum_of_nonneg {l : List ℚ} (hnn : ∀ x ∈ l, 0 ≤ x) {x : ℚ} (hx : x ∈ l) :
    x ≤ l.sum := by
  induction l with
  | nil => simp at hx
  | cons y t ih =>
    simp only [List.sum_cons]
    rcases List.mem_cons.mp hx with rfl | h
    · have : 0 ≤ t.sum :=
        List.sum_nonneg (fun a ha => hnn a (List.mem_cons_of_mem _ ha))
      linarith
    · have h1 := ih (fun a ha => hnn a (List.mem_cons_of_mem _ ha)) h
      have h2 : 0 ≤ y := hnn y (List.mem_cons_self _ _)
      linarith

/-- A probability distribution (non-negative, summing to 1) has its maximum in
`[0, 1]`, and the maximum is at least the uniform value `1 / length`. -/
lemma listMax_distribution {l : List ℚ} (hne : l ≠ []) (hnn : ∀ x ∈ l, 0 ≤ x)
    (hsum : l.sum = 1) :
    0 ≤ listMax l ∧ listMax l ≤ 1 ∧ 1 ≤ listMax l * (l.length : ℚ) := by
  have hmem := listMax_mem hne
  refine ⟨hnn _ hmem, ?_, ?_⟩
  · have := mem_le_sum_of_nonneg hnn hmem
    rwa [hsum] at this
  · have := sum_le_length_mul_listMax l hne
    rw [hsum] at this
    linarith

/-- Unseen values index to `none`. -/
lemma idxOfAux_eq_none {v : String} : ∀ (l : List String) (i : Nat), v ∉ l →
    idxOfAux v l i = none := by
  intro l
  induction l with
  | nil => intro i _; rfl
  | cons c t ih =>
    intro i hv
    have hc : ¬ c = v := fun h => hv (by simp [h])
    have ht : v ∉ t := fun h => hv (List.mem_cons_of_mem _ h)
    simp [idxOfAux, hc, ih (i + 1) ht]

/-- The unseen-category fallback: a value outside the encoder's training
vocabulary encodes to the default code 0. -/
lemma encodeCat_unseen (e : LabelEnc) (v : String) (h : v ∉ e.classes) :
    encodeCat e v = 0 := by
  simp [encodeCat, LabelEnc.transformOne, idxOfAux_eq_none e.classes 0 h]

/-- The clipped value is at least the lower bound. -/
lemma le_clipQ (x lo hi : ℚ) (h : lo ≤ hi) : lo ≤ clipQ x lo hi :=
  le_min (le_max_right _ _) h

/-- The clipped value is at most the upper bound. -/
lemma clipQ_le (x lo hi : ℚ) : clipQ x lo hi ≤ hi := min_le_right _ _

/-- An original metric lying outside the target range `[rmin, rmax]` never
survives `ajustar_metrica_realista` unchanged, whatever the random draw. -/
lemma ajustar_ne_of_outside (orig rmin rmax v : ℚ) (hlh : rmin ≤ rmax)
    (h : orig < rmin ∨ rmax < orig) :
    ajustar_metrica_realista orig rmin rmax v ≠ orig := by
  unfold ajustar_metrica_realista
  rcases h with h | h
  · have := le_clipQ (orig * (rmax - 5/100) + v) rmin rmax hlh
    intro he; rw [he] at this; linarith
  · have := clipQ_le (orig * (rmax - 5/100) + v) rmin rmax
    intro he; rw [he] at this; linarith

/-- `clipQ` is the identity inside the clipping range. -/
lemma clipQ_of_between {x lo hi : ℚ} (h1 : lo ≤ x) (h2 : x ≤ hi) : clipQ x lo hi = x := by
  unfold clipQ
  rw [max_eq_left h1, min_eq_left h2]

/-- `entrenar` on a missing file: `pd.read_csv` raises before any state
change. -/
lemma entrenar_none_eq (B : Backend) (c : bAImaxClasificadorMejorado) (j : Jitter) :
    entrenar B c none j = (c, .error .fileNotFound) := rfl

/-- `entrenar` on a CSV lacking a required column: `KeyError` during feature
engineering, before any state change. -/
lemma entrenar_keyError_eq (B : Backend) (c : bAImaxClasificadorMejorado) (csv : CSV)
    (j : Jitter) (col : String) (hm : missingRequiredCol csv = some col) :
    entrenar B c (some csv) j = (c, .error (.keyError col)) := by
  simp [entrenar, hm]

/-- `entrenar` when the stratified split fails: by then the encoder loop has
already overwritten `self.label_encoders`. -/
lemma entrenar_split_eq (B : Backend) (c : bAImaxClasificadorMejorado) (csv : CSV)
    (j : Jitter) (hm : missingRequiredCol csv = none)
    (h2 : stratOkBool (prepareTrainData csv).y csv.rows.length = false) :
    entrenar B c (some csv) j =
      ({ c with label_encoders := upsertAll c.label_encoders (fitEncoders csv) },
       .error .splitError) := by
  simp [entrenar, hm, h2]

/-- `entrenar` when fitting the ensemble fails (fewer than two classes): by
then `self.label_encoders` has been overwritten and `self.pipeline` has been
assigned the yet-unfitted pipeline object. -/
lemma entrenar_fit_eq (B : Backend) (c : bAImaxClasificadorMejorado) (csv : CSV)
    (j : Jitter) (hm : missingRequiredCol csv = none)
    (h2 : stratOkBool (prepareTrainData csv).y csv.rows.length = true)
    (h3 : fitOkBool (prepareTrainData csv).y = false) :
    entrenar B c (some csv) j =
      ({ c with label_encoders := upsertAll c.label_encoders (fitEncoders csv),
                pipeline := some PipeObj.unfitted },
       .error .fitError) := by
  simp [entrenar, hm, h2, h3]

/-- `entrenar` when 5-fold cross-validation fails: encoders overwritten,
pipeline fitted, but metrics and the trained flag untouched. -/
lemma entrenar_cv_eq (B : Backend) (c : bAImaxClasificadorMejorado) (csv : CSV)
    (j : Jitter) (hm : missingRequiredCol csv = none)
    (h2 : stratOkBool (prepareTrainData csv).y csv.rows.length = true)
    (h3 : fitOkBool (prepareTrainData csv).y = true)
    (h4 : cvOkBool (prepareTrainData csv).y = false) :
    entrenar B c (some csv) j =
      ({ c with label_encoders := upsertAll c.label_encoders (fitEncoders csv),
                pipeline := some (PipeObj.fitted (B.fit (prepareTrainData csv))) },
       .error .cvError) := by
  simp [entrenar, hm, h2, h3, h4]

/-- `entrenar` on full success: the final state. -/
lemma entrenar_success_eq (B : Backend) (c : bAImaxClasificadorMejorado) (csv : CSV)
    (j : Jitter) (hm : missingRequiredCol csv = none)
    (h2 : stratOkBool (prepareTrainData csv).y csv.rows.length = true)
    (h3 : fitOkBool (prepareTrainData csv).y = true)
    (h4 : cvOkBool (prepareTrainData csv).y = true) :
    entrenar B c (some csv) j =
      ({ pipeline := some (PipeObj.fitted (B.fit (prepareTrainData csv)))
         metricas := some (guardarMetricas (B.evalOrig (prepareTrainData csv))
           (B.cvAcc (prepareTrainData csv)) (B.cvF1 (prepareTrainData csv)) j
           (featureNamesOf csv))
         esta_entrenado := true
         label_encoders := upsertAll c.label_encoders (fitEncoders csv)
         feature_names := c.feature_names }, .ok ()) := by
  simp [entrenar, hm, h2, h3, h4]

/-- A successful `entrenar` call came from a real CSV and left the instance
trained with the fitted pipeline. -/
lemma entrenar_ok_inv (B : Backend) (c : bAImaxClasificadorMejorado) (file : Option CSV)
    (j : Jitter) (h : (entrenar B c file j).2 = .ok ()) :
    ∃ csv, file = some csv ∧
      (entrenar B c file j).1.esta_entrenado = true ∧
      (entrenar B c file j).1.pipeline =
        some (PipeObj.fitted (B.fit (prepareTrainData csv))) := by
  cases file with
  | none => rw [entrenar_none_eq] at h; simp at h
  | some csv =>
    refine ⟨csv, rfl, ?_⟩
    cases hm : missingRequiredCol csv with
    | some col => rw [entrenar_keyError_eq B c csv j col hm] at h; simp at h
    | none =>
      cases h2 : stratOkBool (prepareTrainData csv).y csv.rows.length with
      | false => rw [entrenar_split_eq B c csv j hm h2] at h; simp at h
      | true =>
        cases h3 : fitOkBool (prepareTrainData csv).y with
        | false => rw [entrenar_fit_eq B c csv j hm h2 h3] at h; simp at h
        | true =>
          cases h4 : cvOkBool (prepareTrainData csv).y with
          | false => rw [entrenar_cv_eq B c csv j hm h2 h3 h4] at h; simp at h
          | true => rw [entrenar_success_eq B c csv j hm h2 h3 h4]; exact ⟨rfl, rfl⟩

/-- `predecir` on a trained instance with a fitted pipeline: the returned
dict, explicitly. -/
lemma predecir_fitted {c : bAImaxClasificadorMejorado} {p : Pipe FeatRow}
    (h1 : c.esta_entrenado = true) (h2 : c.pipeline = some (PipeObj.fitted p))
    (comentario : List Nat) (ciudad : String) (edad : ℚ) (genero urgencia : String)
    (zona_rural acceso_internet atencion_previa : ℚ) (categoria : String) :
    c.predecir comentario ciudad edad genero urgencia zona_rural acceso_internet
        atencion_previa categoria =
      .ok { gravedad := p.predictLabel (buildPredRow c.label_encoders comentario ciudad edad
              genero urgencia zona_rural acceso_internet atencion_previa categoria)
            confianza := listMax (p.proba (buildPredRow c.label_encoders comentario ciudad edad
              genero urgencia zona_rural acceso_internet atencion_previa categoria))
            probabilidades := p.classes.zip (p.proba (buildPredRow c.label_encoders comentario
              ciudad edad genero urgencia zona_rural acceso_internet atencion_previa categoria))
            features_detectadas :=
              { longitud_texto := (buildPredRow c.label_encoders comentario ciudad edad genero
                  urgencia zona_rural acceso_internet atencion_previa categoria).comentario_limpio.length
                palabras_urgentes := cuentaPalabrasUrgentes (buildPredRow c.label_encoders
                  comentario ciudad edad genero urgencia zona_rural acceso_internet
                  atencion_previa categoria).comentario_limpio
                menciona_medicos := (buildPredRow c.label_encoders comentario ciudad edad genero
                  urgencia zona_rural acceso_internet atencion_previa categoria).menciona_medicos ≠ 0
                ciudad_grande := (buildPredRow c.label_encoders comentario ciudad edad genero
                  urgencia zona_rural acceso_internet atencion_previa categoria).ciudad_grande ≠ 0
                es_adulto_mayor := (buildPredRow c.label_encoders comentario ciudad edad genero
                  urgencia zona_rural acceso_internet atencion_previa categoria).es_adulto_mayor ≠ 0
                zona_rural := (buildPredRow c.label_encoders comentario ciudad edad genero
                  urgencia zona_rural acceso_internet atencion_previa categoria).zona_rural ≠ 0 } } := by
  simp [bAImaxClasificadorMejorado.predecir, h1, h2]

/-! ## Concrete instances used by witnesses and counterexamples -/

/-- A concrete fitted pipeline satisfying the sklearn contract. -/
def pipeW : Pipe FeatRow where
  classes := ["GRAVE", "MODERADO"]
  predictLabel := fun _ => "GRAVE"
  proba := fun _ => [3/5, 2/5]
  classes_ne := by simp
  proba_len := fun _ => rfl
  proba_nonneg := by intro r x hx; simp at hx; rcases hx with h | h <;> simp [h] <;> norm_num
  proba_sum := fun _ => by norm_num

/-- A concrete held-out evaluation result with accuracy 1/2. -/
def origW : OrigEval :=
  { accuracy := 1/2, macroF1 := 1/2, f1_weighted := 1/2, macroPrecision := 1/2,
    macroRecall := 1/2, report := [], confusion := [[4, 1], [0, 5]] }

/-- A concrete deterministic scikit-learn backend. -/
def backendW : Backend :=
  { fit := fun _ => pipeW
    evalOrig := fun _ => origW
    cvAcc := fun _ => [49/50, 49/50, 49/50, 49/50, 49/50]
    cvF1 := fun _ => [49/50, 49/50, 49/50, 49/50, 49/50] }

/-- All random draws zero. -/
def jitterZero : Jitter :=
  { jAcc := 0, jF1 := 0, jF1w := 0, jPrec := 0, jRec := 0,
    jCv := [0, 0, 0, 0, 0], jCvF1 := [0, 0, 0, 0, 0] }

/-- A second set of draws, differing on the cross-validation vector. -/
def jitterCv : Jitter :=
  { jAcc := 0, jF1 := 0, jF1w := 0, jPrec := 0, jRec := 0,
    jCv := [1/100, 1/100, 1/100, 1/100, 1/100], jCvF1 := [0, 0, 0, 0, 0] }

/-- A concrete training row. -/
def mkRowW (com ciu grav : String) : Row :=
  { comentario := some (strCp com), ciudad := some ciu, genero := some "M",
    urgencia := some "Urgente", categoria := some "Salud", gravedad := some grav,
    edad := some 35, zonaRural := some 0, accesoInternet := some 1,
    atencionPrevia := some 1 }

/-- The header of a well-formed training CSV. -/
def colsW : List String :=
  ["Comentario", "Ciudad", "Edad", "Género", "Nivel de urgencia", "Zona rural",
   "Acceso a internet", "Atención previa del gobierno", "Categoría del problema",
   "Nivel_gravedad"]

/-- A well-formed 10-row training CSV, 5 GRAVE / 5 MODERADO. -/
def csvW : CSV :=
  { cols := colsW
    rows := List.replicate 5 (mkRowW "falta agua urgente" "Bogotá" "GRAVE") ++
            List.replicate 5 (mkRowW "necesitamos bibliotecas" "Cali" "MODERADO") }

/-- A 10-row training CSV whose severity column holds a single class. -/
def csvG : CSV :=
  { cols := colsW
    rows := List.replicate 10 (mkRowW "falta agua urgente" "Bogotá" "GRAVE") }

/-- A concrete fitted `Ciudad` encoder. -/
def encW : LabelEnc := ⟨["Bogotá", "Cali"]⟩

/-- A concrete trained classifier instance. -/
def cW : bAImaxClasificadorMejorado :=
  { pipeline := some (PipeObj.fitted pipeW), metricas := none, esta_entrenado := true,
    label_encoders := [("Ciudad", encW), ("Categoría del problema", ⟨["Salud"]⟩),
                       ("Género", ⟨["M"]⟩)],
    feature_names := [] }

/-- A concrete untrained basic classifier. -/
def coreW : bAImaxClassifier :=
  { modelo_tipo := "logistic", pipeline := none, metricas := none, esta_entrenado := false }

/-- An unpickled dict missing the `label_encoders` key. -/
def dPart : PickleDict :=
  { pipeline := some (some (PipeObj.fitted pipeW)), label_encoders := none,
    metricas := none, feature_names := none }

/-- `map Prod.snd` of a zip of equally long lists is the second list. -/
lemma zip_map_snd {α β : Type} : ∀ (a : List α) (b : List β), a.length = b.length →
    (a.zip b).map Prod.snd = b := by
  intro a
  induction a with
  | nil => intro b h; cases b with | nil => rfl | cons y t => simp at h
  | cons x s ih =>
    intro b h
    cases b with
    | nil => simp at h
    | cons y t =>
      simp only [List.zip_cons_cons, List.map_cons]
      rw [ih t (by simpa using h)]

/-! ## Claim theorems -/

/-- C3: evaluation of the text normalization at the failing input.  The claim
(and the source comment `mantiene acentos`, line 164) says the accented letter
of `"médicos"` survives as a single accented letter; in fact NFKD decomposes
`é` into `e` + U+0301 and the combining mark — outside `\w` and outside the
preserved range U+00C0–U+017F — is replaced by a space, so the word comes out
as `"me dicos"`.  The empty/missing-comment boundary behaviour of the claim
does hold: both normalize to the empty string with zero-length text
features. -/
theorem C3_medicos_normalizacion :
    preprocesar_texto (some (strCp "médicos")) = strCp "me dicos" ∧
    preprocesar_texto (some (strCp "médicos")) ≠ strCp "médicos" ∧
    (0xE9 ∈ strCp "médicos") ∧
    (0xE9 ∉ preprocesar_texto (some (strCp "médicos"))) ∧
    (0x301 ∉ preprocesar_texto (some (strCp "médicos"))) ∧
    preprocesar_texto (some (strCp "  HOLA   qué√tal  ")) = strCp "hola que tal" ∧
    preprocesar_texto (some []) = [] ∧
    preprocesar_texto none = [] ∧
    longitud_comentario (some []) = 0 ∧ num_palabras (some []) = 0 ∧
    longitud_comentario none = 0 ∧ num_palabras none = 0 := by
  decide

/-- C10: on an untrained instance the metrics accessor returns the literal
string `"Modelo no entrenado"` (and only then); on a trained instance it
returns the stored metrics mapping — in both classifier classes. -/
theorem C10_obtener_metricas_tipo :
    (∀ c : bAImaxClasificadorMejorado,
      (c.obtener_metricas = Sum.inl "Modelo no entrenado" ↔ c.esta_entrenado = false) ∧
      (c.esta_entrenado = true → c.obtener_metricas = Sum.inr c.metricas)) ∧
    (∀ cc : bAImaxClassifier,
      (cc.obtener_metricas = Sum.inl "Modelo no entrenado" ↔ cc.esta_entrenado = false) ∧
      (cc.esta_entrenado = true → cc.obtener_metricas = Sum.inr cc.metricas)) := by
  constructor
  · intro c
    cases hb : c.esta_entrenado <;>
      simp [bAImaxClasificadorMejorado.obtener_metricas, hb]
  · intro cc
    cases hb : cc.esta_entrenado <;>
      simp [bAImaxClassifier.obtener_metricas, hb]

/-- C10 witness: the accessor evaluated on concrete untrained and trained
instances. -/
theorem C10_obtener_metricas_tipo_w :
    nuevoClasificador.obtener_metricas = Sum.inl "Modelo no entrenado" ∧
    coreW.obtener_metricas = Sum.inl "Modelo no entrenado" ∧
    cW.obtener_metricas = Sum.inr cW.metricas := by
  refine ⟨(C10_obtener_metricas_tipo.1 nuevoClasificador).1.mpr rfl,
          (C10_obtener_metricas_tipo.2 coreW).1.mpr rfl,
          (C10_obtener_metricas_tipo.1 cW).2 rfl⟩

/-- C8: `predecir` raises the not-trained `ValueError` exactly when the
trained flag is unset — in both classifier classes — and the flag is set by
every successful `entrenar` and by every `cargar_modelo` that actually read a
file to completion. -/
theorem C8_notTrained_iff :
    (∀ (c : bAImaxClasificadorMejorado) comentario ciudad edad genero urgencia zr ai ap cat,
      c.predecir comentario ciudad edad genero urgencia zr ai ap cat =
          .error PredErr.notTrained ↔ c.esta_entrenado = false) ∧
    (∀ (cc : bAImaxClassifier) comentario,
      cc.predecir comentario = .error PredErr.notTrained ↔ cc.esta_entrenado = false) ∧
    (∀ B c file j, (entrenar B c file j).2 = .ok () →
      (entrenar B c file j).1.esta_entrenado = true) ∧
    (∀ (c : bAImaxClasificadorMejorado) d, (c.cargar_modelo (some d)).2 = .ok () →
      (c.cargar_modelo (some d)).1.esta_entrenado = true) := by
  refine ⟨?_, ?_, ?_, ?_⟩
  · intro c comentario ciudad edad genero urgencia zr ai ap cat
    cases hb : c.esta_entrenado
    · simp [bAImaxClasificadorMejorado.predecir, hb]
    · simp only [bAImaxClasificadorMejorado.predecir, hb]
      cases hp : c.pipeline with
      | none => simp
      | some po => cases po <;> simp
  · intro cc comentario
    cases hb : cc.esta_entrenado
    · simp [bAImaxClassifier.predecir, hb]
    · simp only [bAImaxClassifier.predecir, hb]
      cases hp : cc.pipeline <;> simp
  · intro B c file j h
    obtain ⟨csv, _, hT, _⟩ := entrenar_ok_inv B c file j h
    exact hT
  · intro c d h
    rcases d with ⟨dp, dle, dm, dfn⟩
    cases dp with
    | none => simp [bAImaxClasificadorMejorado.cargar_modelo] at h
    | some p =>
      cases dle with
      | none => simp [bAImaxClasificadorMejorado.cargar_modelo] at h
      | some le =>
        cases dm with
        | none => simp [bAImaxClasificadorMejorado.cargar_modelo] at h
        | some m => simp [bAImaxClasificadorMejorado.cargar_modelo]

/-- C8 witness: a concrete untrained instance raises the not-trained error,
a concrete trained instance does not. -/
theorem C8_notTrained_iff_w :
    nuevoClasificador.predecir (strCp "hola") "Bogotá" 35 "M" "No urgente" 0 1 1 "Salud" =
      .error PredErr.notTrained ∧
    ¬ (cW.predecir (strCp "hola") "Bogotá" 35 "M" "No urgente" 0 1 1 "Salud" =
      .error PredErr.notTrained) := by
  constructor
  · exact (C8_notTrained_iff.1 nuevoClasificador (strCp "hola") "Bogotá" 35 "M" "No urgente"
      0 1 1 "Salud").mpr rfl
  · intro h
    have := (C8_notTrained_iff.1 cW (strCp "hola") "Bogotá" 35 "M" "No urgente"
      0 1 1 "Salud").mp h
    simp [cW] at this

/-- C6 (amended): the actual error behaviour of `cargar_modelo`.  A missing
file raises `FileNotFoundError`, which is caught and merely printed — the
caller receives a normal return and the state is unchanged, not a typed
error.  An existing but unreadable file raises `PermissionError`/`OSError` at
`open`, which `except FileNotFoundError` does *not* catch: that untyped OS
error propagates to the caller with the state unchanged.  A dict that does
not match the expected schema raises a plain `KeyError` (no
`ModelFormatError` type exists in the repository): a dict without `pipeline`
aborts with the state unchanged, a dict without `label_encoders` aborts
*after* `self.pipeline` has been overwritten (a half-initialized instance,
though `esta_entrenado` stays as it was), a dict without `metricas` aborts
after pipeline and encoders were overwritten, and a dict with the three keys
loads successfully (`feature_names` defaults to `[]`). -/
theorem C6_cargar_modelo_errores :
    (∀ c : bAImaxClasificadorMejorado, c.cargar_modelo none = (c, .ok ())) ∧
    (∀ c : bAImaxClasificadorMejorado,
      cargar_modelo_conArchivo c ArchivoModelo.missing = (c, .ok ())) ∧
    (∀ c : bAImaxClasificadorMejorado,
      cargar_modelo_conArchivo c ArchivoModelo.unreadable =
        (c, .error LoadFault.osError)) ∧
    (∀ (c : bAImaxClasificadorMejorado) d, d.pipeline = none →
      c.cargar_modelo (some d) = (c, .error (.keyError "pipeline"))) ∧
    (∀ (c : bAImaxClasificadorMejorado) d p, d.pipeline = some p →
      d.label_encoders = none →
      c.cargar_modelo (some d) =
        ({ c with pipeline := p }, .error (.keyError "label_encoders"))) ∧
    (∀ (c : bAImaxClasificadorMejorado) d p le, d.pipeline = some p →
      d.label_encoders = some le → d.metricas = none →
      c.cargar_modelo (some d) =
        ({ c with pipeline := p, label_encoders := le }, .error (.keyError "metricas"))) ∧
    (∀ (c : bAImaxClasificadorMejorado) d p le m, d.pipeline = some p →
      d.label_encoders = some le → d.metricas = some m →
      c.cargar_modelo (some d) =
        ({ pipeline := p, label_encoders := le, metricas := m,
           feature_names := d.feature_names.getD [], esta_entrenado := true }, .ok ())) := by
  refine ⟨fun c => rfl, fun c => rfl, fun c => rfl, ?_, ?_, ?_, ?_⟩
  · intro c d h1
    simp [bAImaxClasificadorMejorado.cargar_modelo, h1]
  · intro c d p h1 h2
    simp [bAImaxClasificadorMejorado.cargar_modelo, h1, h2]
  · intro c d p le h1 h2 h3
    simp [bAImaxClasificadorMejorado.cargar_modelo, h1, h2, h3]
  · intro c d p le m h1 h2 h3
    simp [bAImaxClasificadorMejorado.cargar_modelo, h1, h2, h3]

/-- C6 witness: an unreadable file propagates its untyped OS error to the
caller of a fresh instance with the state unchanged, and loading a dict
without `label_encoders` raises `KeyError` after the pipeline attribute has
already been set. -/
theorem C6_cargar_modelo_errores_w :
    cargar_modelo_conArchivo nuevoClasificador ArchivoModelo.unreadable =
      (nuevoClasificador, .error LoadFault.osError) ∧
    nuevoClasificador.cargar_modelo (some dPart) =
      ({ nuevoClasificador with pipeline := some (PipeObj.fitted pipeW) },
       .error (.keyError "label_encoders")) := by
  exact ⟨C6_cargar_modelo_errores.2.2.1 nuevoClasificador,
    C6_cargar_modelo_errores.2.2.2.2.1 nuevoClasificador dPart
      (some (PipeObj.fitted pipeW)) rfl rfl⟩

/-- C6 counterexample: on a missing file `cargar_modelo` does *not* deliver a
typed failure to the caller — the exception is swallowed by catch-and-print
and the call returns normally with the state unchanged. -/
theorem C6_counterexample :
    nuevoClasificador.cargar_modelo none = (nuevoClasificador, .ok ()) := rfl

/-- C4: saving a trained classifier serializes pipeline, encoders and metrics
as one unit, and loading that unit into any fresh instance yields a
classifier whose `predecir` output (label, confidence and full probability
distribution) is identical to the original's on every input. -/
theorem C4_guardar_cargar_roundtrip (c : bAImaxClasificadorMejorado) (d : ModeloData)
    (hT : c.esta_entrenado = true) (hS : c.guardar_modelo = .ok d) :
    (d.pipeline = c.pipeline ∧ d.label_encoders = c.label_encoders ∧
     d.metricas = c.metricas) ∧
    ∀ c₂ : bAImaxClasificadorMejorado,
      (c₂.cargar_modelo (some d.toPickle)).2 = .ok () ∧
      ∀ comentario ciudad edad genero urgencia zr ai ap cat,
        ((c₂.cargar_modelo (some d.toPickle)).1).predecir comentario ciudad edad genero
            urgencia zr ai ap cat =
          c.predecir comentario ciudad edad genero urgencia zr ai ap cat := by
  have hd : d = ⟨c.pipeline, c.label_encoders, c.metricas, c.feature_names⟩ := by
    simp [bAImaxClasificadorMejorado.guardar_modelo, hT] at hS
    exact hS.symm
  subst hd
  refine ⟨⟨rfl, rfl, rfl⟩, ?_⟩
  intro c₂
  refine ⟨rfl, ?_⟩
  intro comentario ciudad edad genero urgencia zr ai ap cat
  simp [bAImaxClasificadorMejorado.predecir, bAImaxClasificadorMejorado.cargar_modelo,
    ModeloData.toPickle, hT]

/-- C4 witness: a concrete trained classifier round-trips through save/load
with identical predictions. -/
theorem C4_guardar_cargar_roundtrip_w :
    cW.guardar_modelo =
      .ok ⟨cW.pipeline, cW.label_encoders, cW.metricas, cW.feature_names⟩ ∧
    ((nuevoClasificador.cargar_modelo
        (some (ModeloData.toPickle
          ⟨cW.pipeline, cW.label_encoders, cW.metricas, cW.feature_names⟩))).1).predecir
        (strCp "hola") "Bogotá" 35 "M" "No urgente" 0 1 1 "Salud" =
      cW.predecir (strCp "hola") "Bogotá" 35 "M" "No urgente" 0 1 1 "Salud" := by
  refine ⟨rfl, ?_⟩
  exact ((C4_guardar_cargar_roundtrip cW _ rfl rfl).2 nuevoClasificador).2
    (strCp "hola") "Bogotá" 35 "M" "No urgente" 0 1 1 "Salud"

/-- C5: on a trained classifier, `predecir` never raises for any inputs — in
particular for a city or category string never seen during training — the
unseen value is encoded with the default code 0 (the `try/except` fallback),
and the returned probability distribution is non-negative and sums to 1. -/
theorem C5_unseen_category (c : bAImaxClasificadorMejorado) (p : Pipe FeatRow)
    (h1 : c.esta_entrenado = true) (h2 : c.pipeline = some (PipeObj.fitted p))
    (comentario : List Nat) (ciudad : String) (edad : ℚ) (genero urgencia : String)
    (zr ai ap : ℚ) (cat : String) :
    ∃ r, c.predecir comentario ciudad edad genero urgencia zr ai ap cat = .ok r ∧
      (r.probabilidades.map Prod.snd).sum = 1 ∧
      (∀ x ∈ r.probabilidades.map Prod.snd, 0 ≤ x) ∧
      (∀ e : LabelEnc, ciudad ∉ e.classes → encodeCat e ciudad = 0) ∧
      (∀ e : LabelEnc, cat ∉ e.classes → encodeCat e cat = 0) := by
  refine ⟨_, predecir_fitted h1 h2 comentario ciudad edad genero urgencia zr ai ap cat,
    ?_, ?_, ?_, ?_⟩
  · rw [zip_map_snd _ _ (p.proba_len _).symm]
    exact p.proba_sum _
  · rw [zip_map_snd _ _ (p.proba_len _).symm]
    exact p.proba_nonneg _
  · intro e he
    exact encodeCat_unseen e ciudad he
  · intro e he
    exact encodeCat_unseen e cat he

/-- C5 witness: predicting with the unseen city `"Medellín"` and unseen
category `"Cultura"` on a concrete trained classifier succeeds with a
distribution summing to 1, and the unseen city encodes to 0. -/
theorem C5_unseen_category_w :
    (∃ r, cW.predecir (strCp "hola") "Medellín" 35 "M" "No urgente" 0 1 1 "Cultura" =
        .ok r ∧ (r.probabilidades.map Prod.snd).sum = 1) ∧
    encodeCat encW "Medellín" = 0 := by
  obtain ⟨r, hok, hsum, hnn, hc, hk⟩ := C5_unseen_category cW pipeW rfl rfl
    (strCp "hola") "Medellín" 35 "M" "No urgente" 0 1 1 "Cultura"
  exact ⟨⟨r, hok, hsum⟩, hc encW (by decide)⟩

/-- C9: after any successful training run, `predecir` succeeds on every input
and its confidence — the maximum class probability of the returned
distribution — lies in `[0, 1]` and is at least the uniform-chance baseline
`1 / num_classes`. -/
theorem C9_confianza_baseline (B : Backend) (c : bAImaxClasificadorMejorado)
    (file : Option CSV) (j : Jitter) (h : (entrenar B c file j).2 = .ok ())
    (comentario : List Nat) (ciudad : String) (edad : ℚ) (genero urgencia : String)
    (zr ai ap : ℚ) (cat : String) :
    ∃ r, ((entrenar B c file j).1).predecir comentario ciudad edad genero urgencia
        zr ai ap cat = .ok r ∧
      0 ≤ r.confianza ∧ r.confianza ≤ 1 ∧ 0 < r.probabilidades.length ∧
      1 / (r.probabilidades.length : ℚ) ≤ r.confianza := by
  obtain ⟨csv, hfile, hT, hP⟩ := entrenar_ok_inv B c file j h
  have hpred := predecir_fitted (p := B.fit (prepareTrainData csv)) hT hP comentario ciudad
    edad genero urgencia zr ai ap cat
  set p := B.fit (prepareTrainData csv) with hp
  set fr := buildPredRow (entrenar B c file j).1.label_encoders comentario ciudad edad
    genero urgencia zr ai ap cat with hfr
  have hne : p.proba fr ≠ [] := by
    intro hnil
    have hl := p.proba_len fr
    rw [hnil] at hl
    exact p.classes_ne (List.eq_nil_of_length_eq_zero hl.symm)
  obtain ⟨hnn0, hle1, hmul⟩ :=
    listMax_distribution hne (p.proba_nonneg fr) (p.proba_sum fr)
  have hlenN : (p.classes.zip (p.proba fr)).length = (p.proba fr).length := by
    simp [List.length_zip, p.proba_len fr]
  refine ⟨_, hpred, hnn0, hle1, ?_, ?_⟩
  · show 0 < (p.classes.zip (p.proba fr)).length
    rw [hlenN]
    exact List.length_pos.mpr hne
  · show 1 / (((p.classes.zip (p.proba fr)).length : ℚ)) ≤ listMax (p.proba fr)
    rw [hlenN]
    have hpos : (0 : ℚ) < ((p.proba fr).length : ℚ) := by
      exact_mod_cast List.length_pos.mpr hne
    rw [div_le_iff₀ hpos]
    linarith [hmul]

/-- C9 witness: a concrete successful training run followed by `predecir` on
one of the training rows. -/
theorem C9_confianza_baseline_w :
    ∃ r, ((entrenar backendW nuevoClasificador (some csvW) jitterZero).1).predecir
        (strCp "falta agua urgente") "Bogotá" 35 "M" "Urgente" 0 1 1 "Salud" = .ok r ∧
      0 ≤ r.confianza ∧ r.confianza ≤ 1 ∧ 0 < r.probabilidades.length ∧
      1 / (r.probabilidades.length : ℚ) ≤ r.confianza :=
  C9_confianza_baseline backendW nuevoClasificador (some csvW) jitterZero rfl
    (strCp "falta agua urgente") "Bogotá" 35 "M" "Urgente" 0 1 1 "Salud"

/-- C1 (amended): after a successful training run the stored confusion matrix
and classification report *are* the values computed from the held-out test
split, but the stored accuracy, macro F1, weighted F1, macro precision and
macro recall are post-hoc adjusted (`ajustar_metrica_realista`: scaled,
randomly jittered and clipped into preset "credible" ranges), and the stored
cross-validation means/stds come from similarly scaled, jittered and clipped
score vectors.  In particular, whenever a held-out scalar metric lies outside
its preset range, the stored value provably differs from it, whatever the
random draw. -/
theorem C1_metricas_ajustadas (B : Backend) (c : bAImaxClasificadorMejorado) (csv : CSV)
    (j : Jitter) (hm : missingRequiredCol csv = none)
    (h2 : stratOkBool (prepareTrainData csv).y csv.rows.length = true)
    (h3 : fitOkBool (prepareTrainData csv).y = true)
    (h4 : cvOkBool (prepareTrainData csv).y = true) :
    ∃ M, (entrenar B c (some csv) j).1.metricas = some M ∧
      M = guardarMetricas (B.evalOrig (prepareTrainData csv))
            (B.cvAcc (prepareTrainData csv)) (B.cvF1 (prepareTrainData csv)) j
            (featureNamesOf csv) ∧
      M.confusion_matrix = (B.evalOrig (prepareTrainData csv)).confusion ∧
      M.classification_report = (B.evalOrig (prepareTrainData csv)).report ∧
      ((B.evalOrig (prepareTrainData csv)).accuracy < 945/1000 ∨
        967/1000 < (B.evalOrig (prepareTrainData csv)).accuracy →
        M.accuracy ≠ (B.evalOrig (prepareTrainData csv)).accuracy) ∧
      ((B.evalOrig (prepareTrainData csv)).macroF1 < 935/1000 ∨
        955/1000 < (B.evalOrig (prepareTrainData csv)).macroF1 →
        M.macroF1 ≠ (B.evalOrig (prepareTrainData csv)).macroF1) ∧
      ((B.evalOrig (prepareTrainData csv)).macroPrecision < 93/100 ∨
        95/100 < (B.evalOrig (prepareTrainData csv)).macroPrecision →
        M.macroPrecision ≠ (B.evalOrig (prepareTrainData csv)).macroPrecision) ∧
      ((B.evalOrig (prepareTrainData csv)).macroRecall < 925/1000 ∨
        945/1000 < (B.evalOrig (prepareTrainData csv)).macroRecall →
        M.macroRecall ≠ (B.evalOrig (prepareTrainData csv)).macroRecall) := by
  rw [entrenar_success_eq B c csv j hm h2 h3 h4]
  refine ⟨_, rfl, rfl, rfl, rfl, ?_, ?_, ?_, ?_⟩
  · intro h
    exact ajustar_ne_of_outside _ _ _ _ (by norm_num) h
  · intro h
    exact ajustar_ne_of_outside _ _ _ _ (by norm_num) h
  · intro h
    exact ajustar_ne_of_outside _ _ _ _ (by norm_num) h
  · intro h
    exact ajustar_ne_of_outside _ _ _ _ (by norm_num) h

/-- C1 witness: a concrete training run whose held-out accuracy is 1/2 stores
the honest confusion matrix but an adjusted accuracy different from 1/2. -/
theorem C1_metricas_ajustadas_w :
    ((entrenar backendW nuevoClasificador (some csvW) jitterZero).1.metricas.map
        Metricas.confusion_matrix) = some [[4, 1], [0, 5]] ∧
    ((entrenar backendW nuevoClasificador (some csvW) jitterZero).1.metricas.map
        Metricas.accuracy) ≠ some (1/2) := by
  obtain ⟨M, hM, hMeq, hconf, hrep, hacc, _, _, _⟩ :=
    C1_metricas_ajustadas backendW nuevoClasificador csvW jitterZero
      (by decide) (by decide) (by decide) (by decide)
  have ho : (backendW.evalOrig (prepareTrainData csvW)).accuracy = 1/2 := rfl
  have hacc2 : ¬ M.accuracy = 1/2 := by
    rw [← ho]
    exact hacc (Or.inl (by rw [ho]; norm_num))
  rw [hM]
  simp only [Option.map_some', ne_eq, Option.some.injEq]
  refine ⟨?_, hacc2⟩
  rw [hconf]
  rfl

/-- C1 counterexample: in the same concrete run the held-out accuracy is 1/2
while the stored accuracy is the clipped value 0.945 — the stored metric does
not equal the held-out one, refuting "no post-hoc adjustment". -/
theorem C1_counterexample :
    (backendW.evalOrig (prepareTrainData csvW)).accuracy = 1/2 ∧
    ((entrenar backendW nuevoClasificador (some csvW) jitterZero).1.metricas.map
        Metricas.accuracy) = some (189/200) ∧
    (189/200 : ℚ) ≠ 1/2 := by
  refine ⟨rfl, ?_, by norm_num⟩
  rw [entrenar_success_eq backendW nuevoClasificador csvW jitterZero
    (by decide) (by decide) (by decide) (by decide)]
  simp only [Option.map_some', Option.some.injEq]
  show ajustar_metrica_realista (1/2) (945/1000) (967/1000) 0 = 189/200
  unfold ajustar_metrica_realista clipQ
  rw [max_eq_right (by norm_num), min_eq_left (by norm_num)]
  norm_num

/-- Concrete evaluation of the adjusted cross-validation mean with zero
draws. -/
lemma cvmean_zero :
    listMean (List.zipWith (fun s e => clipQ (s * (945/1000) + e) (92/100) (955/1000))
      [49/50, 49/50, 49/50, 49/50, 49/50] ([0, 0, 0, 0, 0] : List ℚ)) = 9261/10000 := by
  have e1 : clipQ ((49:ℚ)/50 * (945/1000) + 0) (92/100) (955/1000) = 9261/10000 := by
    rw [clipQ_of_between (by norm_num) (by norm_num)]
    norm_num
  simp only [List.zipWith_cons_cons, List.zipWith_nil_right, e1]
  unfold listMean
  norm_num

/-- Concrete evaluation of the adjusted cross-validation mean with draws
`1/100`. -/
lemma cvmean_jitter :
    listMean (List.zipWith (fun s e => clipQ (s * (945/1000) + e) (92/100) (955/1000))
      [49/50, 49/50, 49/50, 49/50, 49/50]
      ([1/100, 1/100, 1/100, 1/100, 1/100] : List ℚ)) = 9361/10000 := by
  have e2 : clipQ ((49:ℚ)/50 * (945/1000) + 1/100) (92/100) (955/1000) = 9361/10000 := by
    rw [clipQ_of_between (by norm_num) (by norm_num)]
    norm_num
  simp only [List.zipWith_cons_cons, List.zipWith_nil_right, e2]
  unfold listMean
  norm_num

/-- C2 (amended): the components of `entrenar` that are seeded are two-run
deterministic — on byte-identical input the control flow, the stored
confusion matrix, the stored classification report, the encoders and the
trained flag are identical whatever the unseeded draws of the
metric-adjustment code turn out to be. -/
theorem C2_confusion_determinista (B : Backend) (c : bAImaxClasificadorMejorado)
    (file : Option CSV) (j1 j2 : Jitter) :
    (entrenar B c file j1).2 = (entrenar B c file j2).2 ∧
    ((entrenar B c file j1).1.metricas.map Metricas.confusion_matrix =
      (entrenar B c file j2).1.metricas.map Metricas.confusion_matrix) ∧
    ((entrenar B c file j1).1.metricas.map Metricas.classification_report =
      (entrenar B c file j2).1.metricas.map Metricas.classification_report) ∧
    ((entrenar B c file j1).1.label_encoders = (entrenar B c file j2).1.label_encoders) ∧
    ((entrenar B c file j1).1.esta_entrenado = (entrenar B c file j2).1.esta_entrenado) := by
  cases file with
  | none =>
    rw [entrenar_none_eq, entrenar_none_eq]
    exact ⟨rfl, rfl, rfl, rfl, rfl⟩
  | some csv =>
    cases hm : missingRequiredCol csv with
    | some col =>
      rw [entrenar_keyError_eq B c csv j1 col hm, entrenar_keyError_eq B c csv j2 col hm]
      exact ⟨rfl, rfl, rfl, rfl, rfl⟩
    | none =>
      cases h2 : stratOkBool (prepareTrainData csv).y csv.rows.length with
      | false =>
        rw [entrenar_split_eq B c csv j1 hm h2, entrenar_split_eq B c csv j2 hm h2]
        exact ⟨rfl, rfl, rfl, rfl, rfl⟩
      | true =>
        cases h3 : fitOkBool (prepareTrainData csv).y with
        | false =>
          rw [entrenar_fit_eq B c csv j1 hm h2 h3, entrenar_fit_eq B c csv j2 hm h2 h3]
          exact ⟨rfl, rfl, rfl, rfl, rfl⟩
        | true =>
          cases h4 : cvOkBool (prepareTrainData csv).y with
          | false =>
            rw [entrenar_cv_eq B c csv j1 hm h2 h3 h4, entrenar_cv_eq B c csv j2 hm h2 h3 h4]
            exact ⟨rfl, rfl, rfl, rfl, rfl⟩
          | true =>
            rw [entrenar_success_eq B c csv j1 hm h2 h3 h4,
                entrenar_success_eq B c csv j2 hm h2 h3 h4]
            exact ⟨rfl, rfl, rfl, rfl, rfl⟩

/-- C2 counterexample: two runs of `entrenar` on the *same* CSV, differing
only in the unseeded `np.random.normal` draws, store different
cross-validation accuracy means — the stored metrics are not two-run
identical, refuting the claim as stated (the confusion matrices do
coincide). -/
theorem C2_counterexample :
    ((entrenar backendW nuevoClasificador (some csvW) jitterZero).1.metricas.map
        Metricas.cv_accuracy_mean) ≠
    ((entrenar backendW nuevoClasificador (some csvW) jitterCv).1.metricas.map
        Metricas.cv_accuracy_mean) := by
  rw [entrenar_success_eq backendW nuevoClasificador csvW jitterZero
      (by decide) (by decide) (by decide) (by decide),
    entrenar_success_eq backendW nuevoClasificador csvW jitterCv
      (by decide) (by decide) (by decide) (by decide)]
  simp only [Option.map_some', ne_eq, Option.some.injEq]
  have hL : (guardarMetricas (backendW.evalOrig (prepareTrainData csvW))
      (backendW.cvAcc (prepareTrainData csvW)) (backendW.cvF1 (prepareTrainData csvW))
      jitterZero (featureNamesOf csvW)).cv_accuracy_mean = 9261/10000 := cvmean_zero
  have hR : (guardarMetricas (backendW.evalOrig (prepareTrainData csvW))
      (backendW.cvAcc (prepareTrainData csvW)) (backendW.cvF1 (prepareTrainData csvW))
      jitterCv (featureNamesOf csvW)).cv_accuracy_mean = 9361/10000 := cvmean_jitter
  rw [hL, hR]
  norm_num

/-- C7 (amended): `entrenar` aborts before any state change on a missing file
or a missing required column, and `esta_entrenado`/`metricas` are untouched
by every failure; but a label error surfacing at the stratified split aborts
*after* `self.label_encoders` has been overwritten, and one surfacing at
ensemble fitting additionally leaves `self.pipeline` assigned the unfitted
pipeline object — partial state is retained. -/
theorem C7_entrenar_estado_error :
    (∀ B (c : bAImaxClasificadorMejorado) j,
      entrenar B c none j = (c, .error .fileNotFound)) ∧
    (∀ B (c : bAImaxClasificadorMejorado) csv j col, missingRequiredCol csv = some col →
      entrenar B c (some csv) j = (c, .error (.keyError col))) ∧
    (∀ B (c : bAImaxClasificadorMejorado) csv j, missingRequiredCol csv = none →
      stratOkBool (prepareTrainData csv).y csv.rows.length = false →
      (entrenar B c (some csv) j).2 = .error .splitError ∧
      (entrenar B c (some csv) j).1.esta_entrenado = c.esta_entrenado ∧
      (entrenar B c (some csv) j).1.metricas = c.metricas ∧
      (entrenar B c (some csv) j).1.pipeline = c.pipeline ∧
      (entrenar B c (some csv) j).1.label_encoders =
        upsertAll c.label_encoders (fitEncoders csv)) ∧
    (∀ B (c : bAImaxClasificadorMejorado) csv j, missingRequiredCol csv = none →
      stratOkBool (prepareTrainData csv).y csv.rows.length = true →
      fitOkBool (prepareTrainData csv).y = false →
      (entrenar B c (some csv) j).2 = .error .fitError ∧
      (entrenar B c (some csv) j).1.esta_entrenado = c.esta_entrenado ∧
      (entrenar B c (some csv) j).1.metricas = c.metricas ∧
      (entrenar B c (some csv) j).1.pipeline = some PipeObj.unfitted ∧
      (entrenar B c (some csv) j).1.label_encoders =
        upsertAll c.label_encoders (fitEncoders csv)) := by
  refine ⟨entrenar_none_eq, entrenar_keyError_eq, ?_, ?_⟩
  · intro B c csv j hm h2
    rw [entrenar_split_eq B c csv j hm h2]
    exact ⟨rfl, rfl, rfl, rfl, rfl⟩
  · intro B c csv j hm h2 h3
    rw [entrenar_fit_eq B c csv j hm h2 h3]
    exact ⟨rfl, rfl, rfl, rfl, rfl⟩

/-- C7 witness: the error cases instantiated on concrete inputs — training on
a single-class CSV fails at the ensemble fit with the untrained flag and
metrics untouched. -/
theorem C7_entrenar_estado_error_w :
    (entrenar backendW nuevoClasificador (some csvG) jitterZero).2 = .error .fitError ∧
    (entrenar backendW nuevoClasificador (some csvG) jitterZero).1.esta_entrenado = false ∧
    (entrenar backendW nuevoClasificador (some csvG) jitterZero).1.metricas = none := by
  have h := C7_entrenar_estado_error.2.2.2 backendW nuevoClasificador csvG jitterZero
    (by decide) (by decide) (by decide)
  exact ⟨h.1, h.2.1, h.2.2.1⟩

/-- C7 counterexample: training on a single-class CSV fails with a label
error, yet the instance does *not* keep its previous model state — the label
encoders have been overwritten and the pipeline attribute has been assigned,
refuting the claim that the pipeline and encoders stay unchanged on every
data/label error. -/
theorem C7_counterexample :
    (entrenar backendW nuevoClasificador (some csvG) jitterZero).2 = .error .fitError ∧
    (entrenar backendW nuevoClasificador (some csvG) jitterZero).1.label_encoders ≠
      nuevoClasificador.label_encoders ∧
    (entrenar backendW nuevoClasificador (some csvG) jitterZero).1.pipeline =
      some PipeObj.unfitted ∧
    nuevoClasificador.pipeline = none := by
  rw [entrenar_fit_eq backendW nuevoClasificador csvG jitterZero
    (by decide) (by decide) (by decide)]
  exact ⟨rfl, by decide, rfl, rfl⟩
